import Mathlib

/-!
Shallow embedding of the AI Patent Explorer API controller
(`PatentController`, `WorkspaceGuard`) and its data model.

Scores are modelled as rationals (`ℚ`); JS numbers in the mock code are
short decimal literals whose membership in `[0,1]` agrees with the
floating-point evaluation; a decimal literal `0.xy` is written
`mkRat xy 100`.  Fire-and-forget side effects of the handlers
(NATS publish stubs, audit-log inserts, search-session saves, console
logging) do not affect the returned value or the control flow and are
elided.  `Date.now()` and `Math.random()` are modelled as an explicit
environment parameter `Env` supplied to each invocation.
-/

/-- HTTP error value thrown via `HttpException(message, status)`. -/
structure HttpException where
  message : String
  status : Nat
deriving DecidableEq, Repr

/-- `patents` row (TypeORM `Patent` entity; `pub_date` is written by the
ingest handler's `metadata?.pub_date` path).  Dates are day numbers,
`created_at` a timestamp; vector/jsonb columns not read by the handlers
are omitted. -/
structure Patent where
  id : String
  workspace_id : String
  pub_number : String
  prio_date : Option Int
  pub_date : Option Int
  title : String
  abstract : String
  created_at : Int
deriving DecidableEq, Repr

/-- `claims` row (TypeORM `Claim` entity). -/
structure Claim where
  id : String
  patent_id : String
  claim_number : Nat
  is_independent : Bool
  text : String
deriving DecidableEq, Repr

/-- `clauses` row (SQL schema: `clause_index`, `clause_type`, `text`). -/
structure Clause where
  id : String
  claim_id : String
  clause_index : Nat
  text : String
deriving DecidableEq, Repr

/-- `memberships` row (TypeORM `Membership` entity used by
`WorkspaceGuard`); named `MembershipRow` here because `Membership` is
taken by the ambient library. -/
structure MembershipRow where
  user_id : String
  workspace_id : String
  role : String
deriving DecidableEq, Repr

/-- Authenticated user attached to the request (`req.user`). -/
structure User where
  id : String
deriving DecidableEq, Repr

/-- Database state visible to the controller's repositories. -/
structure Db where
  patents : List Patent
  claims : List Claim
  clauses : List Clause
  memberships : List MembershipRow
deriving DecidableEq, Repr

/-- `patentRepository.findOne({ where: { id, workspace_id } })`. -/
def findPatent (db : Db) (patent_id workspace_id : String) : Option Patent :=
  db.patents.find? (fun p => p.id == patent_id && p.workspace_id == workspace_id)

/-- `PatentController.hasWorkspaceAccess`: the TODO stub returns `true`
for every `(user_id, workspace_id)` pair. -/
def hasWorkspaceAccess (user_id workspace_id : String) : Bool :=
  true

/-- Ambient state consumed by the id generators and by the database when
it generates a fresh uuid: `now` models `Date.now()`, `rand` the
`Math.random().toString(36).substr(2, 9)` suffix, `uuid` a DB-generated
primary key. -/
structure Env where
  now : Nat
  rand : String
  uuid : String
deriving DecidableEq, Repr

/-- `generateComparisonId`. -/
def generateComparisonId (env : Env) : String :=
  "compare_" ++ toString env.now ++ "_" ++ env.rand

/-- `generateNoveltyId`. -/
def generateNoveltyId (env : Env) : String :=
  "novelty_" ++ toString env.now ++ "_" ++ env.rand

/-- `generateSearchId`. -/
def generateSearchId (env : Env) : String :=
  "search_" ++ toString env.now ++ "_" ++ env.rand

/-- `generateChartId`. -/
def generateChartId (env : Env) : String :=
  "chart_" ++ toString env.now ++ "_" ++ env.rand

/-- `generateExportId`. -/
def generateExportId (env : Env) : String :=
  "export_" ++ toString env.now ++ "_" ++ env.rand

/-- One element of `ComparisonResponse.alignments`. -/
structure AlignmentItem where
  clause_index : Nat
  clause_text : String
  reference_patent_id : String
  reference_clause_text : String
  similarity_score : ℚ
  alignment_type : String
deriving DecidableEq, Repr

/-- `getMockAlignments`: one canned alignment per entry of `refs`,
`refs.map((ref_id, index) => ...)`. -/
def getMockAlignments (patent_id : String) (claim_num : Nat) (refs : List String) :
    List AlignmentItem :=
  refs.enum.map (fun p =>
    { clause_index := p.1
      clause_text := "Mock clause " ++ toString (p.1 + 1) ++ " for patent " ++ patent_id
      reference_patent_id := p.2
      reference_clause_text := "Mock reference clause " ++ toString (p.1 + 1)
      similarity_score := mkRat 8 10 - (p.1 : ℚ) * mkRat 1 10
      alignment_type := if p.1 == 0 then "high_similarity" else "medium_similarity" })

/-- One element of `NoveltyResponse.clause_details`. -/
structure ClauseDetail where
  clause_index : Nat
  clause_text : String
  novelty_score : ℚ
  confidence : String
deriving DecidableEq, Repr

/-- Value returned by `getMockNovelty`. -/
structure MockNovelty where
  novelty_score : ℚ
  obviousness_score : ℚ
  confidence_band : String
  clause_details : List ClauseDetail
deriving DecidableEq, Repr

/-- `getMockNovelty`: fixed canned scores, independent of
`patent_id` and `claim_num`. -/
def getMockNovelty (patent_id : String) (claim_num : Nat) : MockNovelty :=
  { novelty_score := mkRat 75 100
    obviousness_score := mkRat 25 100
    confidence_band := "high"
    clause_details :=
      [ { clause_index := 0
          clause_text := "Mock clause 1"
          novelty_score := mkRat 8 10
          confidence := "high" }
      , { clause_index := 1
          clause_text := "Mock clause 2"
          novelty_score := mkRat 7 10
          confidence := "medium" } ] }

/-- `CompareRequest` body. -/
structure CompareRequest where
  patent_id : String
  claim_num : Nat
  refs : List String
  workspace_id : String
deriving DecidableEq, Repr

/-- `NoveltyRequest` body. -/
structure NoveltyRequest where
  patent_id : String
  claim_num : Nat
  workspace_id : String
deriving DecidableEq, Repr

/-- `ComparisonResponse`. -/
structure ComparisonResponse where
  comparison_id : String
  patent_id : String
  claim_num : Nat
  alignments : List AlignmentItem
  status : String
deriving DecidableEq, Repr

/-- `NoveltyResponse`. -/
structure NoveltyResponse where
  novelty_id : String
  patent_id : String
  claim_num : Nat
  novelty_score : ℚ
  obviousness_score : ℚ
  confidence_band : String
  clause_details : List ClauseDetail
  status : String
deriving DecidableEq, Repr

/-- The `catch` block of each handler: every error escaping the `try`
body is re-thrown as a 500 with a handler-specific message text in
front (`Failed to ...: ${error.message}`). -/
def wrapCatch (msgHead : String) (r : Except HttpException α) : Except HttpException α :=
  match r with
  | Except.error e => Except.error { message := msgHead ++ e.message, status := 500 }
  | Except.ok v => Except.ok v

/-- `try` body of `POST /patents/compare` (`comparePatent`). -/
def comparePatentBody (db : Db) (user_id : String) (req : CompareRequest) (env : Env) :
    Except HttpException ComparisonResponse :=
  if !(hasWorkspaceAccess user_id req.workspace_id) then
    Except.error { message := "Access denied to workspace", status := 403 }
  else
    match findPatent db req.patent_id req.workspace_id with
    | none => Except.error { message := "Patent not found or access denied", status := 404 }
    | some _ =>
        Except.ok
          { comparison_id := generateComparisonId env
            patent_id := req.patent_id
            claim_num := req.claim_num
            alignments := getMockAlignments req.patent_id req.claim_num req.refs
            status := "completed" }

/-- `comparePatent` with its catch-all wrapper. -/
def comparePatent (db : Db) (user_id : String) (req : CompareRequest) (env : Env) :
    Except HttpException ComparisonResponse :=
  wrapCatch "Failed to compare patent: " (comparePatentBody db user_id req env)

/-- `try` body of `POST /patents/novelty` (`calculateNovelty`). -/
def calculateNoveltyBody (db : Db) (user_id : String) (req : NoveltyRequest) (env : Env) :
    Except HttpException NoveltyResponse :=
  if !(hasWorkspaceAccess user_id req.workspace_id) then
    Except.error { message := "Access denied to workspace", status := 403 }
  else
    match findPatent db req.patent_id req.workspace_id with
    | none => Except.error { message := "Patent not found or access denied", status := 404 }
    | some _ =>
        let mock := getMockNovelty req.patent_id req.claim_num
        Except.ok
          { novelty_id := generateNoveltyId env
            patent_id := req.patent_id
            claim_num := req.claim_num
            novelty_score := mock.novelty_score
            obviousness_score := mock.obviousness_score
            confidence_band := mock.confidence_band
            clause_details := mock.clause_details
            status := "completed" }

/-- `calculateNovelty` with its catch-all wrapper. -/
def calculateNovelty (db : Db) (user_id : String) (req : NoveltyRequest) (env : Env) :
    Except HttpException NoveltyResponse :=
  wrapCatch "Failed to calculate novelty: " (calculateNoveltyBody db user_id req env)

/-- Optional metadata of `PatentIngestRequest` (the fields the ingest
handler reads). -/
structure IngestMetadata where
  title : Option String
  abstract : Option String
  prio_date : Option Int
  pub_date : Option Int
deriving DecidableEq, Repr

/-- `PatentIngestRequest` body. -/
structure PatentIngestRequest where
  file_url : String
  file_type : String
  workspace_id : String
  metadata : Option IngestMetadata
deriving DecidableEq, Repr

/-- `POST /patents/ingest` response shape. -/
structure IngestResponse where
  patent_id : String
  status : String
deriving DecidableEq, Repr

/-- `try` body of `POST /patents/ingest` (`ingestPatent`): the saved
patent's DB-generated primary key is `env.uuid`, `new Date()` is
`env.now`. -/
def ingestPatentBody (db : Db) (user_id : String) (req : PatentIngestRequest) (env : Env) :
    Except HttpException IngestResponse :=
  if !(hasWorkspaceAccess user_id req.workspace_id) then
    Except.error { message := "Access denied to workspace", status := 403 }
  else
    Except.ok { patent_id := env.uuid, status := "processing" }

/-- `ingestPatent` with its catch-all wrapper. -/
def ingestPatent (db : Db) (user_id : String) (req : PatentIngestRequest) (env : Env) :
    Except HttpException IngestResponse :=
  wrapCatch "Failed to ingest patent: " (ingestPatentBody db user_id req env)

/-- `pat` occurs as a leading run of `hay` (character-wise). -/
def charsLeadWith (pat : List Char) : List Char → Bool
  | hay =>
    match pat, hay with
    | [], _ => true
    | _ :: _, [] => false
    | a :: as, b :: bs => a == b && charsLeadWith as bs

/-- `pat` occurs somewhere inside `hay` (character-wise). -/
def charsContain (pat : List Char) : List Char → Bool
  | [] => charsLeadWith pat []
  | c :: t => charsLeadWith pat (c :: t) || charsContain pat t

/-- SQL `column ILIKE '%pat%'`: case-insensitive containment. -/
def ilike (hay pat : String) : Bool :=
  charsContain pat.toLower.data hay.toLower.data

/-- Insert one patent into a `created_at`-descending list, keeping it
stable. -/
def insertByCreatedDesc (p : Patent) : List Patent → List Patent
  | [] => [p]
  | q :: t =>
    if q.created_at < p.created_at then p :: q :: t else q :: insertByCreatedDesc p t

/-- `ORDER BY patent.created_at DESC` of the list query. -/
def sortByCreatedDesc : List Patent → List Patent
  | [] => []
  | p :: t => insertByCreatedDesc p (sortByCreatedDesc t)

/-- `GET /patents` response shape. -/
structure PatentsListResponse where
  patents : List Patent
  total : Nat
  page : Nat
  limit : Nat
deriving DecidableEq, Repr

/-- `try` body of `GET /patents` (`getPatents`): workspace filter plus
optional `title ILIKE OR abstract ILIKE` search filter, ordered by
`created_at DESC`, paginated with `skip((page - 1) * limit)` and
`take(limit)`; `total` counts all filtered rows. -/
def getPatentsBody (db : Db) (user_id workspace_id : String) (page limit : Nat)
    (search : Option String) : Except HttpException PatentsListResponse :=
  if !(hasWorkspaceAccess user_id workspace_id) then
    Except.error { message := "Access denied to workspace", status := 403 }
  else
    let filtered := db.patents.filter (fun p =>
      p.workspace_id == workspace_id &&
        (match search with
         | none => true
         | some s => ilike p.title s || ilike p.abstract s))
    let offset := (page - 1) * limit
    Except.ok
      { patents := ((sortByCreatedDesc filtered).drop offset).take limit
        total := filtered.length
        page := page
        limit := limit }

/-- `getPatents` with its catch-all wrapper. -/
def getPatents (db : Db) (user_id workspace_id : String) (page limit : Nat)
    (search : Option String) : Except HttpException PatentsListResponse :=
  wrapCatch "Failed to get patents: " (getPatentsBody db user_id workspace_id page limit search)

/-- `SearchRequest` body after defaulting (`k = 10`,
`search_type = 'hybrid'`); the optional filters are not read by the
mock path. -/
structure SearchRequest where
  query : String
  k : Nat
  search_type : String
deriving DecidableEq, Repr

/-- One element of `SearchResponse.results` (mock search hit with its
partial patent view `{ id, title, abstract, prio_date }`). -/
structure SearchResultItem where
  patent_id : String
  score : ℚ
  search_type : String
  id : String
  title : String
  abstract : String
  prio_date : Option Int
deriving DecidableEq, Repr

/-- `SearchResponse`. -/
structure SearchResponse where
  results : List SearchResultItem
  total : Nat
  search_id : String
deriving DecidableEq, Repr

/-- `getMockSearchResults`: first `k` workspace patents, scored
`1.0 - index * 0.1`. -/
def getMockSearchResults (db : Db) (workspace_id : String) (k : Nat) :
    List SearchResultItem :=
  ((db.patents.filter (fun p => p.workspace_id == workspace_id)).take k).enum.map
    (fun p =>
      { patent_id := p.2.id
        score := 1 - (p.1 : ℚ) * mkRat 1 10
        search_type := "hybrid"
        id := p.2.id
        title := p.2.title
        abstract := p.2.abstract
        prio_date := p.2.prio_date })

/-- `try` body of `POST /patents/search` (`searchPatents`): the
workspace id comes from the `x-workspace-id` header and is required. -/
def searchPatentsBody (db : Db) (user_id : String) (headerWid : Option String)
    (req : SearchRequest) (env : Env) : Except HttpException SearchResponse :=
  match headerWid with
  | none => Except.error { message := "Workspace ID required", status := 400 }
  | some workspace_id =>
    if !(hasWorkspaceAccess user_id workspace_id) then
      Except.error { message := "Access denied to workspace", status := 403 }
    else
      let results := getMockSearchResults db workspace_id req.k
      Except.ok
        { results := results
          total := results.length
          search_id := generateSearchId env }

/-- `searchPatents` with its catch-all wrapper. -/
def searchPatents (db : Db) (user_id : String) (headerWid : Option String)
    (req : SearchRequest) (env : Env) : Except HttpException SearchResponse :=
  wrapCatch "Failed to search patents: " (searchPatentsBody db user_id headerWid req env)

/-- `ChartRequest` body. -/
structure ChartRequest where
  patent_id : String
  claim_num : Nat
  chart_type : String
  workspace_id : String
deriving DecidableEq, Repr

/-- `ChartResponse`. -/
structure ChartResponse where
  chart_id : String
  patent_id : String
  claim_num : Nat
  chart_type : String
  file_url : String
  status : String
deriving DecidableEq, Repr

/-- `getMockChart` file URL. -/
def getMockChartUrl (patent_id : String) (claim_num : Nat) (chart_type : String) : String :=
  "https://storage.example.com/charts/mock_chart_" ++ patent_id ++ "_"
    ++ toString claim_num ++ "." ++ chart_type

/-- `try` body of `POST /patents/charts/claim` (`generateClaimChart`). -/
def generateClaimChartBody (db : Db) (user_id : String) (req : ChartRequest) (env : Env) :
    Except HttpException ChartResponse :=
  if !(hasWorkspaceAccess user_id req.workspace_id) then
    Except.error { message := "Access denied to workspace", status := 403 }
  else
    match findPatent db req.patent_id req.workspace_id with
    | none => Except.error { message := "Patent not found or access denied", status := 404 }
    | some _ =>
        Except.ok
          { chart_id := generateChartId env
            patent_id := req.patent_id
            claim_num := req.claim_num
            chart_type := req.chart_type
            file_url := getMockChartUrl req.patent_id req.claim_num req.chart_type
            status := "completed" }

/-- `generateClaimChart` with its catch-all wrapper. -/
def generateClaimChart (db : Db) (user_id : String) (req : ChartRequest) (env : Env) :
    Except HttpException ChartResponse :=
  wrapCatch "Failed to generate chart: " (generateClaimChartBody db user_id req env)

/-- `ExportRequest` body. -/
structure ExportRequest where
  patent_ids : List String
  export_type : String
  workspace_id : String
deriving DecidableEq, Repr

/-- `ExportResponse`. -/
structure ExportResponse where
  export_id : String
  patent_ids : List String
  export_type : String
  file_url : String
  status : String
deriving DecidableEq, Repr

/-- The validation loop of the export handler: the first patent id that
is not found in the workspace (the loop throws at the first failure). -/
def firstMissingPatent (db : Db) (workspace_id : String) : List String → Option String
  | [] => none
  | pid :: t =>
    match findPatent db pid workspace_id with
    | none => some pid
    | some _ => firstMissingPatent db workspace_id t

/-- `getMockExport` file URL (`patent_ids.join('_')`). -/
def getMockExportUrl (patent_ids : List String) (export_type : String) : String :=
  "https://storage.example.com/exports/mock_export_"
    ++ String.intercalate "_" patent_ids ++ "." ++ export_type

/-- `try` body of `POST /patents/exports/bundle` (`createExportBundle`). -/
def createExportBundleBody (db : Db) (user_id : String) (req : ExportRequest) (env : Env) :
    Except HttpException ExportResponse :=
  if !(hasWorkspaceAccess user_id req.workspace_id) then
    Except.error { message := "Access denied to workspace", status := 403 }
  else
    match firstMissingPatent db req.workspace_id req.patent_ids with
    | some pid =>
        Except.error
          { message := "Patent " ++ pid ++ " not found or access denied", status := 404 }
    | none =>
        Except.ok
          { export_id := generateExportId env
            patent_ids := req.patent_ids
            export_type := req.export_type
            file_url := getMockExportUrl req.patent_ids req.export_type
            status := "completed" }

/-- `createExportBundle` with its catch-all wrapper. -/
def createExportBundle (db : Db) (user_id : String) (req : ExportRequest) (env : Env) :
    Except HttpException ExportResponse :=
  wrapCatch "Failed to create export bundle: " (createExportBundleBody db user_id req env)

/-- `WorkspaceGuard.canActivate`: the workspace id is resolved from the
`x-workspace-id` header, then the body, then the query string; a missing
user or workspace id, or a missing membership row, raises a
`ForbiddenException` (status 403). -/
def canActivate (db : Db) (user : Option User)
    (headerWid bodyWid queryWid : Option String) : Except HttpException Bool :=
  let workspaceId :=
    match headerWid with
    | some w => some w
    | none =>
      match bodyWid with
      | some w => some w
      | none => queryWid
  match user, workspaceId with
  | some u, some wid =>
    match db.memberships.find? (fun m => m.user_id == u.id && m.workspace_id == wid) with
    | some _ => Except.ok true
    | none => Except.error { message := "Access denied to workspace", status := 403 }
  | _, _ => Except.error { message := "User or workspace not specified", status := 403 }

/-- Modelled from the spec: the per-clause novelty formula of the
Novelty Scorer (spec section 4.5), which has no implementation in the
source (the controller substitutes `getMockNovelty`):
`novelty = 1 - max_combined_score_across_all_aligned_references`,
clipped to `[0,1]`; with no alignment at all the clause is fully novel
(`novelty = 1`). -/
def clauseNoveltySpec (scores : List ℚ) : ℚ :=
  min 1 (max 0 (1 - scores.foldr max 0))

/-- Does the result carry the FORBIDDEN `'Access denied to workspace'`
error thrown by the `hasWorkspaceAccess` branch? -/
def isForbiddenAccessDenied : Except HttpException α → Bool
  | Except.error e => e.status == 403 && e.message == "Access denied to workspace"
  | Except.ok _ => false

/-- All novelty scores of a successful novelty response are within
`[0,1]` (errors carry no scores). -/
def noveltyScoresInRange : Except HttpException NoveltyResponse → Bool
  | Except.error _ => true
  | Except.ok r =>
      decide (0 ≤ r.novelty_score) && decide (r.novelty_score ≤ 1)
        && r.clause_details.all
          (fun cd => decide (0 ≤ cd.novelty_score) && decide (cd.novelty_score ≤ 1))

/-- Forget the freshly generated `comparison_id` of a comparison
response. -/
def eraseComparisonId (r : ComparisonResponse) : ComparisonResponse :=
  { r with comparison_id := "" }

/-- Forget the freshly generated `novelty_id` of a novelty response. -/
def eraseNoveltyId (r : NoveltyResponse) : NoveltyResponse :=
  { r with novelty_id := "" }

/-- Concrete fixture: the target patent, priority date day 100. -/
def patentT : Patent :=
  { id := "patent-1", workspace_id := "ws-1", pub_number := "US-111"
    prio_date := some 100, pub_date := some 90
    title := "Target patent", abstract := "", created_at := 0 }

/-- Concrete fixture: a reference patent published on day 200, after the
target's priority date (day 100). -/
def patentR : Patent :=
  { id := "ref-1", workspace_id := "ws-1", pub_number := "US-222"
    prio_date := some 150, pub_date := some 200
    title := "Reference patent", abstract := "", created_at := 1 }

/-- Concrete fixture: claim 1 of the target patent. -/
def claimOne : Claim :=
  { id := "claim-1", patent_id := "patent-1", claim_number := 1
    is_independent := true, text := "A method comprising three clauses." }

/-- Concrete fixture: claim 1 has three clauses, with indices 0, 1, 2. -/
def clausesOfClaimOne : List Clause :=
  [ { id := "clause-0", claim_id := "claim-1", clause_index := 0, text := "preamble" }
  , { id := "clause-1", claim_id := "claim-1", clause_index := 1, text := "first element" }
  , { id := "clause-2", claim_id := "claim-1", clause_index := 2, text := "second element" } ]

/-- Concrete fixture database. -/
def dbFix : Db :=
  { patents := [patentT, patentR]
    claims := [claimOne]
    clauses := clausesOfClaimOne
    memberships := [] }

/-- Concrete fixture environment (first invocation). -/
def envA : Env := { now := 0, rand := "abc123def", uuid := "uuid-1" }

/-- Concrete fixture environment (second invocation, one millisecond
later). -/
def envB : Env := { now := 1, rand := "abc123def", uuid := "uuid-2" }

/-- Concrete compare request with a single pinned reference. -/
def compareReqOne : CompareRequest :=
  { patent_id := "patent-1", claim_num := 1, refs := ["ref-1"], workspace_id := "ws-1" }

/-- Concrete compare request with ten pinned references. -/
def compareReqTen : CompareRequest :=
  { patent_id := "patent-1", claim_num := 1
    refs := ["r1", "r2", "r3", "r4", "r5", "r6", "r7", "r8", "r9", "r10"]
    workspace_id := "ws-1" }

/-- Concrete novelty request for claim 1 of the target patent. -/
def noveltyReqOne : NoveltyRequest :=
  { patent_id := "patent-1", claim_num := 1, workspace_id := "ws-1" }

/-- A second fixture database (different stored rows) for comparing two
independent novelty invocations. -/
def dbFix2 : Db :=
  { patents := [patentT]
    claims := []
    clauses := []
    memberships := [ { user_id := "user-2", workspace_id := "ws-1", role := "member" } ] }

/-- The concrete novelty response of the first fixture invocation. -/
def noveltyRespA : NoveltyResponse :=
  { novelty_id := "novelty_0_abc123def"
    patent_id := "patent-1"
    claim_num := 1
    novelty_score := mkRat 75 100
    obviousness_score := mkRat 25 100
    confidence_band := "high"
    clause_details := (getMockNovelty "patent-1" 1).clause_details
    status := "completed" }

/-- The concrete novelty response of the second fixture invocation. -/
def noveltyRespB : NoveltyResponse :=
  { novelty_id := "novelty_1_abc123def"
    patent_id := "patent-1"
    claim_num := 1
    novelty_score := mkRat 75 100
    obviousness_score := mkRat 25 100
    confidence_band := "high"
    clause_details := (getMockNovelty "patent-1" 1).clause_details
    status := "completed" }

/-- How `comparePatent` computes, as a single case split on the patent
lookup: the only inputs reaching the successful response are the request
fields and the id-generator environment. -/
theorem comparePatent_eq (db : Db) (u : String) (req : CompareRequest) (env : Env) :
    comparePatent db u req env =
      match findPatent db req.patent_id req.workspace_id with
      | none =>
          Except.error
            { message := "Failed to compare patent: Patent not found or access denied"
              status := 500 }
      | some _ =>
          Except.ok
            { comparison_id := generateComparisonId env
              patent_id := req.patent_id
              claim_num := req.claim_num
              alignments := getMockAlignments req.patent_id req.claim_num req.refs
              status := "completed" } := by
  unfold comparePatent wrapCatch comparePatentBody hasWorkspaceAccess
  cases findPatent db req.patent_id req.workspace_id <;> rfl

/-- How `calculateNovelty` computes, as a single case split on the
patent lookup: every successful response carries the fixed
`getMockNovelty` scores. -/
theorem calculateNovelty_eq (db : Db) (u : String) (req : NoveltyRequest) (env : Env) :
    calculateNovelty db u req env =
      match findPatent db req.patent_id req.workspace_id with
      | none =>
          Except.error
            { message := "Failed to calculate novelty: Patent not found or access denied"
              status := 500 }
      | some _ =>
          Except.ok
            { novelty_id := generateNoveltyId env
              patent_id := req.patent_id
              claim_num := req.claim_num
              novelty_score := mkRat 75 100
              obviousness_score := mkRat 25 100
              confidence_band := "high"
              clause_details := (getMockNovelty req.patent_id req.claim_num).clause_details
              status := "completed" } := by
  unfold calculateNovelty wrapCatch calculateNoveltyBody hasWorkspaceAccess
  cases findPatent db req.patent_id req.workspace_id <;> rfl

/-- Every successful `calculateNovelty` response has the fixed mock
score fields, independent of the database, the user, the request and
the environment. -/
theorem calculateNovelty_ok_fields (db : Db) (u : String) (req : NoveltyRequest)
    (env : Env) (r : NoveltyResponse)
    (h : calculateNovelty db u req env = Except.ok r) :
    r.novelty_score = mkRat 75 100 ∧ r.obviousness_score = mkRat 25 100
      ∧ r.confidence_band = "high"
      ∧ r.clause_details = (getMockNovelty "" 0).clause_details
      ∧ r.status = "completed" := by
  rw [calculateNovelty_eq] at h
  cases hfind : findPatent db req.patent_id req.workspace_id <;> rw [hfind] at h
  · exact absurd h (by simp)
  · cases h
    exact ⟨rfl, rfl, rfl, rfl, rfl⟩

/-- Claim C1: evaluation of the compare operation at the failing input.
The compare operation on the fixture labels its alignment
"high_similarity" (and "medium_similarity" from the second reference
on), and neither label is among the four documented alignment labels
overlap, paraphrase, gap, ambiguous. -/
theorem compare_alignment_type_outside_documented_labels :
    (comparePatent dbFix "user-1" compareReqOne envA).toOption.map
        (fun r => r.alignments.map (fun a => a.alignment_type))
      = some ["high_similarity"]
    ∧ (getMockAlignments "patent-1" 1 ["ref-1", "ref-2"]).map (fun a => a.alignment_type)
      = ["high_similarity", "medium_similarity"]
    ∧ "high_similarity" ∉ (["overlap", "paraphrase", "gap", "ambiguous"] : List String)
    ∧ "medium_similarity" ∉ (["overlap", "paraphrase", "gap", "ambiguous"] : List String) := by
  refine ⟨?_, rfl, by decide, by decide⟩
  rw [comparePatent_eq]; rfl

/-- Claim C2: evaluation of the compare operation at the failing input.
A compare request with ten references yields a tenth alignment whose
similarity_score is 0.8 - 9 * 0.1, which is negative, so not every
similarity_score of a compare response lies in [0,1]. -/
theorem compare_similarity_score_negative_with_ten_refs :
    ((comparePatent dbFix "user-1" compareReqTen envA).toOption.map
        (fun r => (r.alignments.map (fun a => a.similarity_score)).getLast?))
      = some (some (mkRat 8 10 - ((9 : ℕ) : ℚ) * mkRat 1 10))
    ∧ mkRat 8 10 - ((9 : ℕ) : ℚ) * mkRat 1 10 < 0 := by
  constructor
  · rw [comparePatent_eq]; rfl
  · norm_num [Rat.mkRat_eq_div]

/-- Claim C3: every score field of any novelty response lies in [0,1]
(the checker is vacuous on error responses, which carry no scores), and
the spec-modelled per-clause novelty value is always within [0,1] as
well. -/
theorem novelty_scores_within_unit_interval (db : Db) (u : String)
    (req : NoveltyRequest) (env : Env) (scores : List ℚ) :
    noveltyScoresInRange (calculateNovelty db u req env) = true
      ∧ 0 ≤ clauseNoveltySpec scores ∧ clauseNoveltySpec scores ≤ 1 := by
  refine ⟨?_, le_min (by norm_num) (le_max_left 0 _), min_le_left 1 _⟩
  rw [calculateNovelty_eq]
  cases findPatent db req.patent_id req.workspace_id <;> rfl

/-- Claim C4: evaluation of the novelty operation at the failing input.
In the fixture every stored reference postdates the target's priority
date, yet the novelty response reports clause novelty scores 0.8 and
0.7 (not 1), clause confidences "high" and "medium" (not low), and
confidence band "high", with no insufficient-evidence flag anywhere in
the response shape. -/
theorem novelty_ignores_missing_qualifying_passages :
    patentT.prio_date = some 100
    ∧ patentR.pub_date = some 200
    ∧ ((100 : ℤ) < 200)
    ∧ (calculateNovelty dbFix "user-1" noveltyReqOne envA).toOption.map
        (fun r => (r.clause_details.map (fun cd => cd.novelty_score),
          r.clause_details.map (fun cd => cd.confidence), r.confidence_band, r.status))
      = some ([mkRat 8 10, mkRat 7 10], ["high", "medium"], "high", "completed")
    ∧ (mkRat 8 10 ≠ (1 : ℚ) ∧ mkRat 7 10 ≠ (1 : ℚ))
    ∧ ("high" : String) ≠ "low" := by
  refine ⟨rfl, rfl, by decide, ?_, by decide, by decide⟩
  rw [calculateNovelty_eq]; rfl

/-- Claim C5: evaluation of the compare operation at the failing input.
The fixture reference patent is published on day 200, after the
target's priority date (day 100), yet the compare response contains an
alignment referencing it: no priority-date filtering happens anywhere
in the compare path. -/
theorem compare_alignment_references_postdating_patent :
    patentT.prio_date = some 100
    ∧ patentR.pub_date = some 200
    ∧ ((100 : ℤ) < 200)
    ∧ (comparePatent dbFix "user-1" compareReqOne envA).toOption.map
        (fun r => r.alignments.map (fun a => a.reference_patent_id))
      = some ["ref-1"]
    ∧ patentR.id = "ref-1" := by
  refine ⟨rfl, rfl, by decide, ?_, rfl⟩
  rw [comparePatent_eq]; rfl

/-- Claim C6: for every successful novelty computation and every
nonnegative slack, the obviousness score is at most
(1 - claim-level novelty) + slack. -/
theorem obviousness_bounded_by_novelty_complement (db : Db) (u : String)
    (req : NoveltyRequest) (env : Env) (slack : ℚ) (r : NoveltyResponse)
    (hs : 0 ≤ slack) (h : calculateNovelty db u req env = Except.ok r) :
    r.obviousness_score ≤ (1 - r.novelty_score) + slack := by
  obtain ⟨hn, ho, -, -, -⟩ := calculateNovelty_ok_fields db u req env r h
  rw [hn, ho]
  have hc : (1 : ℚ) - mkRat 75 100 = mkRat 25 100 := by norm_num [Rat.mkRat_eq_div]
  rw [hc]
  linarith

/-- Witness for claim C6 at slack 0.1 on the fixture invocation. -/
theorem obviousness_bounded_by_novelty_complement_witness :
    noveltyRespA.obviousness_score ≤ (1 - noveltyRespA.novelty_score) + mkRat 1 10 :=
  obviousness_bounded_by_novelty_complement dbFix "user-1" noveltyReqOne envA
    (mkRat 1 10) noveltyRespA (by decide) (by rw [calculateNovelty_eq]; rfl)

/-- Claim C7, counterexample: two compare invocations (and two novelty
invocations) on the identical database, user and request return
different responses, because the generated comparison_id / novelty_id
embeds the invocation time and randomness. -/
theorem compare_and_novelty_responses_differ_across_invocations :
    comparePatent dbFix "user-1" compareReqOne envA
        ≠ comparePatent dbFix "user-1" compareReqOne envB
      ∧ calculateNovelty dbFix "user-1" noveltyReqOne envA
        ≠ calculateNovelty dbFix "user-1" noveltyReqOne envB := by
  constructor
  · intro h
    have hA : (comparePatent dbFix "user-1" compareReqOne envA).toOption.map
        (fun r => r.comparison_id) = some "compare_0_abc123def" := by
      rw [comparePatent_eq]; rfl
    have hB : (comparePatent dbFix "user-1" compareReqOne envB).toOption.map
        (fun r => r.comparison_id) = some "compare_1_abc123def" := by
      rw [comparePatent_eq]; rfl
    rw [h, hB] at hA
    exact absurd hA (by decide)
  · intro h
    have hA : (calculateNovelty dbFix "user-1" noveltyReqOne envA).toOption.map
        (fun r => r.novelty_id) = some "novelty_0_abc123def" := by
      rw [calculateNovelty_eq]; rfl
    have hB : (calculateNovelty dbFix "user-1" noveltyReqOne envB).toOption.map
        (fun r => r.novelty_id) = some "novelty_1_abc123def" := by
      rw [calculateNovelty_eq]; rfl
    rw [h, hB] at hA
    exact absurd hA (by decide)

/-- Claim C7 as amended: on identical database, user and request, two
compare invocations agree on every response field except the generated
comparison_id, and two novelty invocations agree on every response
field except the generated novelty_id (in particular all alignments,
scores, clause details and statuses are identical). -/
theorem compare_and_novelty_deterministic_up_to_generated_ids (db : Db) (u : String)
    (creq : CompareRequest) (nreq : NoveltyRequest) (e1 e2 : Env) :
    Except.map eraseComparisonId (comparePatent db u creq e1)
        = Except.map eraseComparisonId (comparePatent db u creq e2)
      ∧ Except.map eraseNoveltyId (calculateNovelty db u nreq e1)
        = Except.map eraseNoveltyId (calculateNovelty db u nreq e2) := by
  constructor
  · rw [comparePatent_eq, comparePatent_eq]
    cases findPatent db creq.patent_id creq.workspace_id <;> rfl
  · rw [calculateNovelty_eq, calculateNovelty_eq]
    cases findPatent db nreq.patent_id nreq.workspace_id <;> rfl

/-- Claim C8: evaluation of the novelty operation at the failing input.
The stored claim has three clauses (indices 0, 1, 2), yet the novelty
response details exactly the fixed clause indices 0 and 1 and reports
status "completed", never "partial": clause 2 is silently absent. -/
theorem novelty_silently_omits_stored_clause :
    dbFix.clauses.map (fun c => c.clause_index) = [0, 1, 2]
    ∧ dbFix.clauses.map (fun c => c.claim_id) = ["claim-1", "claim-1", "claim-1"]
    ∧ claimOne.patent_id = noveltyReqOne.patent_id
    ∧ claimOne.claim_number = noveltyReqOne.claim_num
    ∧ (calculateNovelty dbFix "user-1" noveltyReqOne envA).toOption.map
        (fun r => (r.clause_details.map (fun cd => cd.clause_index), r.status))
      = some ([0, 1], "completed")
    ∧ (2 : ℕ) ∉ ([0, 1] : List ℕ)
    ∧ ("completed" : String) ≠ "partial" := by
  refine ⟨rfl, rfl, rfl, rfl, ?_, by decide, by decide⟩
  rw [calculateNovelty_eq]; rfl

/-- Claim C9: any two successful novelty computations, over any
databases, users, requests and environments, return the same fixed
score fields: novelty 0.75, obviousness 0.25, confidence band "high",
the same fixed two-entry clause detail list, and status "completed". -/
theorem novelty_score_fields_constant_across_requests (db1 db2 : Db) (u1 u2 : String)
    (req1 req2 : NoveltyRequest) (e1 e2 : Env) (r1 r2 : NoveltyResponse)
    (h1 : calculateNovelty db1 u1 req1 e1 = Except.ok r1)
    (h2 : calculateNovelty db2 u2 req2 e2 = Except.ok r2) :
    r1.novelty_score = mkRat 75 100 ∧ r1.obviousness_score = mkRat 25 100
      ∧ r1.confidence_band = "high"
      ∧ r1.clause_details = (getMockNovelty "" 0).clause_details
      ∧ (getMockNovelty "" 0).clause_details.length = 2
      ∧ r1.status = "completed"
      ∧ r1.novelty_score = r2.novelty_score
      ∧ r1.obviousness_score = r2.obviousness_score
      ∧ r1.confidence_band = r2.confidence_band
      ∧ r1.clause_details = r2.clause_details
      ∧ r1.status = r2.status := by
  obtain ⟨a1, b1, c1, d1, s1⟩ := calculateNovelty_ok_fields db1 u1 req1 e1 r1 h1
  obtain ⟨a2, b2, c2, d2, s2⟩ := calculateNovelty_ok_fields db2 u2 req2 e2 r2 h2
  exact ⟨a1, b1, c1, d1, rfl, s1, by rw [a1, a2], by rw [b1, b2], by rw [c1, c2],
    by rw [d1, d2], by rw [s1, s2]⟩

/-- Witness for claim C9 on two fixture invocations over different
databases, users and environments. -/
theorem novelty_score_fields_constant_across_requests_witness :
    noveltyRespA.novelty_score = mkRat 75 100
      ∧ noveltyRespA.obviousness_score = mkRat 25 100
      ∧ noveltyRespA.confidence_band = "high"
      ∧ noveltyRespA.clause_details = (getMockNovelty "" 0).clause_details
      ∧ (getMockNovelty "" 0).clause_details.length = 2
      ∧ noveltyRespA.status = "completed"
      ∧ noveltyRespA.novelty_score = noveltyRespB.novelty_score
      ∧ noveltyRespA.obviousness_score = noveltyRespB.obviousness_score
      ∧ noveltyRespA.confidence_band = noveltyRespB.confidence_band
      ∧ noveltyRespA.clause_details = noveltyRespB.clause_details
      ∧ noveltyRespA.status = noveltyRespB.status :=
  novelty_score_fields_constant_across_requests dbFix dbFix2 "user-1" "user-2"
    noveltyReqOne noveltyReqOne envA envB noveltyRespA noveltyRespB
    (by rw [calculateNovelty_eq]; rfl) (by rw [calculateNovelty_eq]; rfl)

/-- Claim C10: the hasWorkspaceAccess stub returns true for every
input, so no try body of the seven handlers guarded by it (ingest,
list, search, compare, novelty, chart, export) can ever produce the
FORBIDDEN "Access denied to workspace" error; the only workspace
rejection comes from WorkspaceGuard.canActivate when no membership row
matches. -/
theorem workspace_access_stub_guard_unreachable :
    (∀ u w, hasWorkspaceAccess u w = true)
    ∧ (∀ db u req env, isForbiddenAccessDenied (ingestPatentBody db u req env) = false)
    ∧ (∀ db u wid page lim search,
        isForbiddenAccessDenied (getPatentsBody db u wid page lim search) = false)
    ∧ (∀ db u hw req env, isForbiddenAccessDenied (searchPatentsBody db u hw req env) = false)
    ∧ (∀ db u req env, isForbiddenAccessDenied (comparePatentBody db u req env) = false)
    ∧ (∀ db u req env, isForbiddenAccessDenied (calculateNoveltyBody db u req env) = false)
    ∧ (∀ db u req env, isForbiddenAccessDenied (generateClaimChartBody db u req env) = false)
    ∧ (∀ db u req env, isForbiddenAccessDenied (createExportBundleBody db u req env) = false)
    ∧ (∀ (db : Db) (usr : User) (wid : String),
        db.memberships.find? (fun m => m.user_id == usr.id && m.workspace_id == wid) = none →
        canActivate db (some usr) (some wid) none none
          = Except.error { message := "Access denied to workspace", status := 403 }) := by
  refine ⟨fun u w => rfl, fun db u req env => rfl,
    fun db u wid page lim search => rfl, ?_, ?_, ?_, ?_, ?_, ?_⟩
  · intro db u hw req env
    cases hw <;> rfl
  · intro db u req env
    unfold comparePatentBody
    cases findPatent db req.patent_id req.workspace_id <;> rfl
  · intro db u req env
    unfold calculateNoveltyBody
    cases findPatent db req.patent_id req.workspace_id <;> rfl
  · intro db u req env
    unfold generateClaimChartBody
    cases findPatent db req.patent_id req.workspace_id <;> rfl
  · intro db u req env
    unfold createExportBundleBody
    cases firstMissingPatent db req.workspace_id req.patent_ids <;> rfl
  · intro db usr wid h
    unfold canActivate
    simp only [h]

/-- Witness for claim C10: the stub grants access on a concrete pair,
the compare try body on the fixture carries no FORBIDDEN error, and the
guard rejects a user with no membership row. -/
theorem workspace_access_stub_guard_unreachable_witness :
    hasWorkspaceAccess "user-1" "ws-1" = true
    ∧ isForbiddenAccessDenied (comparePatentBody dbFix "user-1" compareReqOne envA) = false
    ∧ canActivate dbFix (some { id := "user-1" }) (some "ws-1") none none
        = Except.error { message := "Access denied to workspace", status := 403 } :=
  ⟨workspace_access_stub_guard_unreachable.1 "user-1" "ws-1",
   workspace_access_stub_guard_unreachable.2.2.2.2.1 dbFix "user-1" compareReqOne envA,
   workspace_access_stub_guard_unreachable.2.2.2.2.2.2.2.2 dbFix { id := "user-1" }
     "ws-1" rfl⟩
